import Mathlib

/-!
# Verification of the aggregation core of `app.py`

Shallow embedding of the transaction-dashboard program `app.py` (pandas +
Dash).  The embedding covers the module-level load/preprocessing step
(lines 20-27) and the `update_graphs` callback (lines 223-292), which
filters the loaded table and produces eight aggregate tables plus a row
preview.

Modelling conventions:

* A dataframe is a `List` of records in file order.  Numeric columns are
  rationals (`ℚ`); the dates in `Transaction_Date`/`Date` arrive already
  parsed (`pd.to_datetime` is the only failing step of the load and is out
  of the numeric scope modelled here, so `load` carries an `Except` whose
  error case is never produced by the numeric pipeline).
* `pd.cut(x, bins, labels)` uses right-closed intervals that exclude the
  left endpoint of the first bin (`right=True`, `include_lowest=False`);
  values outside every bin get a null bucket (`none`).
* `groupby` over a string (object-dtype) column emits the keys present in
  the data in ascending order (`sort=True`).  `groupby` over a categorical
  column (`Location` after `astype('category')`, and the `pd.cut` results)
  emits *every* category of the dtype, in category order, including
  categories with no matching rows (`observed=False`, the pandas < 3.0
  default that applies to this code, which also uses the pre-3.0 `freq='M'`
  spelling).  The categories of `Location` are the sorted distinct values
  of the loaded table; the categories of a `pd.cut` column are its labels
  in bin order.
* `groupby(pd.Grouper(key='Transaction_Date', freq='M'))` bins rows by
  calendar month and produces one bin for *every* month between the
  earliest and latest date present, summing each bin (empty bins sum to 0).
* `sort_values(ascending=False)` is modelled as a stable descending sort
  (numpy's sort on the small group lists produced here is insertion sort,
  which is stable).
* Python string ordering is lexicographic on code points (`lexLt` below);
  `str.title()` is modelled on ASCII letters.
* The sum of an empty group is `0`; the mean of an empty group is `none`
  (pandas `NaN`).
-/

namespace TDash

/-- A parsed calendar date, the result of `pd.to_datetime` on one cell. -/
structure CalDate where
  year : Nat
  month : Nat
  day : Nat
deriving DecidableEq

/-- The month bin a date falls into under `pd.Grouper(freq='M')`:
months are counted linearly so that consecutive calendar months get
consecutive indices. -/
def monthIdx (d : CalDate) : Nat := d.year * 12 + (d.month - 1)

/-- Lexicographic comparison of char lists: Python's string `<`
(restricted to the code points of the data). -/
def lexLt : List Char → List Char → Bool
  | [], [] => false
  | [], _ :: _ => true
  | _ :: _, [] => false
  | a :: as, b :: bs => if a < b then true else if b < a then false else lexLt as bs

/-- Python string comparison, used by `sorted(...)` and `groupby(sort=True)`. -/
def strLt (a b : String) : Bool := lexLt a.data b.data

/-- Character mapping of Python `str.title()` (ASCII model): a letter is
uppercased when the previous character is not a letter, lowercased
otherwise; non-letters pass through.  The `Bool` argument records whether
the previous character was a letter. -/
def titleChars : Bool → List Char → List Char
  | _, [] => []
  | prev, c :: cs =>
    (if c.isAlpha then (if prev then c.toLower else c.toUpper) else c) :: titleChars c.isAlpha cs

/-- `str(x).title()`, applied to every `Location` cell at load (line 24). -/
def titleCase (s : String) : String := String.mk (titleChars false s.data)

/-- One row of `transactions.csv` after date parsing, before the derived
columns of lines 24-27 are added. -/
structure RawRow where
  CustomerID : Nat
  Transaction_ID : Nat
  Transaction_Date : CalDate
  Product_Category : String
  Product_Description : String
  Gender : String
  Location : String
  Tenure_Months : ℚ
  Quantity : ℚ
  Avg_Price : ℚ
  Online_Spend : ℚ
  Offline_Spend : ℚ
  Discount_pct : ℚ
  Coupon_Status : String
  Date : CalDate
deriving DecidableEq

/-- One row of the loaded table `df`: the csv columns with `Location`
title-cased plus the derived `Total_Spend` and `Revenue` columns
(lines 24-27). -/
structure Row where
  CustomerID : Nat
  Transaction_ID : Nat
  Transaction_Date : CalDate
  Product_Category : String
  Product_Description : String
  Gender : String
  Location : String
  Tenure_Months : ℚ
  Quantity : ℚ
  Avg_Price : ℚ
  Online_Spend : ℚ
  Offline_Spend : ℚ
  Discount_pct : ℚ
  Coupon_Status : String
  Date : CalDate
  Total_Spend : ℚ
  Revenue : ℚ
deriving DecidableEq

/-- Lines 24, 26, 27 of `app.py` applied to one row:
`Location` is title-cased, `Total_Spend = Offline_Spend + Online_Spend`,
`Revenue = Quantity * Avg_Price`. -/
def preprocess (r : RawRow) : Row :=
  { CustomerID := r.CustomerID
    Transaction_ID := r.Transaction_ID
    Transaction_Date := r.Transaction_Date
    Product_Category := r.Product_Category
    Product_Description := r.Product_Description
    Gender := r.Gender
    Location := titleCase r.Location
    Tenure_Months := r.Tenure_Months
    Quantity := r.Quantity
    Avg_Price := r.Avg_Price
    Online_Spend := r.Online_Spend
    Offline_Spend := r.Offline_Spend
    Discount_pct := r.Discount_pct
    Coupon_Status := r.Coupon_Status
    Date := r.Date
    Total_Spend := r.Offline_Spend + r.Online_Spend
    Revenue := r.Quantity * r.Avg_Price }

/-- The module-level load (lines 20-27).  The only failing operation in
the source is `pd.to_datetime` (unparsable dates); dates arrive parsed in
this model, and lines 26-27 perform *no* validation of the computed
values, so the numeric part of the load never produces an error. -/
def load (rows : List RawRow) : Except String (List Row) :=
  Except.ok (rows.map preprocess)

/-- Insert a string into a sorted duplicate-free list, keeping it sorted
and duplicate-free. -/
def insertUnique (x : String) : List String → List String
  | [] => [x]
  | y :: ys =>
    if x = y then y :: ys
    else if strLt x y then x :: y :: ys
    else y :: insertUnique x ys

/-- The distinct values of a column in ascending order: the key order of
`groupby(sort=True)` on an object column, of `sorted(df[c].unique())`
(lines 75, 83), and the category order fixed by `astype('category')`
(line 24). -/
def uniqueSorted (xs : List String) : List String := xs.foldr insertUnique []

/-- Insert a keyed value into a descending-by-value list, after every
earlier element with a value ≥ its own (stability). -/
def insertDesc (x : String × ℚ) : List (String × ℚ) → List (String × ℚ)
  | [] => [x]
  | y :: ys => if y.2 ≤ x.2 then x :: y :: ys else y :: insertDesc x ys

/-- `sort_values(ascending=False)`, modelled as a stable descending sort. -/
def sortDesc (l : List (String × ℚ)) : List (String × ℚ) := l.foldr insertDesc []

/-- `groupby(key)[val].sum()` on an object-dtype key column:
one entry per distinct key present, keys ascending, each value the sum of
`val` over the rows with that key. -/
def groupbySum (v : List Row) (key : Row → String) (val : Row → ℚ) : List (String × ℚ) :=
  (uniqueSorted (v.map key)).map
    (fun k => (k, ((v.filter (fun r => key r == k)).map val).sum))

/-- pandas mean of a column: `NaN` (here `none`) on an empty selection. -/
def mean (xs : List ℚ) : Option ℚ :=
  if xs.isEmpty then none else some (xs.sum / (xs.length : ℚ))

/-- `groupby(key)[val].mean()` on an object-dtype key column. -/
def groupbyMean (v : List Row) (key : Row → String) (val : Row → ℚ) :
    List (String × Option ℚ) :=
  (uniqueSorted (v.map key)).map
    (fun k => (k, mean ((v.filter (fun r => key r == k)).map val)))

/-- Revenue summed over the rows of `v` falling in month bin `m`. -/
def revenueInMonth (v : List Row) (m : Nat) : ℚ :=
  ((v.filter (fun r => monthIdx r.Transaction_Date == m)).map Row.Revenue).sum

/-- Smallest and largest entry of a list of month indices, `none` when
empty: the extent of the bins generated by `pd.Grouper(freq='M')`. -/
def monthSpan : List Nat → Option (Nat × Nat)
  | [] => none
  | m :: ms => some (ms.foldl (fun p x => (min p.1 x, max p.2 x)) (m, m))

/-- Line 234: `groupby(pd.Grouper(key='Transaction_Date', freq='M'))
['Revenue'].sum()`.  The grouper produces one bin per calendar month from
the earliest to the latest `Transaction_Date` present (empty ones
included), and the sum of an empty bin is 0. -/
def monthlySales (v : List Row) : List (Nat × ℚ) :=
  match monthSpan (v.map (fun r => monthIdx r.Transaction_Date)) with
  | none => []
  | some (lo, hi) => (List.range' lo (hi + 1 - lo)).map (fun m => (m, revenueInMonth v m))

/-- Line 240: category revenue, summed then sorted descending. -/
def categoryRevenue (v : List Row) : List (String × ℚ) :=
  sortDesc (groupbySum v Row.Product_Category Row.Revenue)

/-- Line 246: top products by summed quantity, sorted descending, first 10. -/
def topProducts (v : List Row) : List (String × ℚ) :=
  (sortDesc (groupbySum v Row.Product_Description Row.Quantity)).take 10

/-- Line 253: per-gender sums of `Online_Spend` and `Offline_Spend`. -/
def genderSpending (v : List Row) : List (String × ℚ × ℚ) :=
  (uniqueSorted (v.map Row.Gender)).map
    (fun g => (g,
      ((v.filter (fun r => r.Gender == g)).map Row.Online_Spend).sum,
      ((v.filter (fun r => r.Gender == g)).map Row.Offline_Spend).sum))

/-- Line 260: the tenure bucket labels, in bin order. -/
def tenure_labels : List String := ["0-6", "7-12", "13-24", "25-36", "36+"]

/-- Line 261: `pd.cut(x, bins=[0, 6, 12, 24, 36, inf], labels=...)` with
pandas defaults (`right=True`, `include_lowest=False`): the intervals are
`(0,6], (6,12], (12,24], (24,36], (36,inf)`; values `≤ 0` fall outside
every bin and get a null bucket. -/
def tenureBucket (q : ℚ) : Option String :=
  if q ≤ 0 then none
  else if q ≤ 6 then some "0-6"
  else if q ≤ 12 then some "7-12"
  else if q ≤ 24 then some "13-24"
  else if q ≤ 36 then some "25-36"
  else some "36+"

/-- Line 262: `groupby('Tenure_Group')['Total_Spend'].mean()`.
`Tenure_Group` is categorical, so all five labels are emitted in bin
order (`observed=False`); rows with a null bucket belong to no group. -/
def tenureSpending (v : List Row) : List (String × Option ℚ) :=
  tenure_labels.map
    (fun lab => (lab,
      mean ((v.filter (fun r => tenureBucket r.Tenure_Months == some lab)).map Row.Total_Spend)))

/-- Line 268: per-location sums of `Total_Spend`, sorted descending.
`Location` is categorical (line 24), so the groupby emits *every*
category of the loaded table `df` (`observed=False`), a filtered-out
location appearing with sum 0. -/
def locationSpending (df v : List Row) : List (String × ℚ) :=
  sortDesc ((uniqueSorted (df.map Row.Location)).map
    (fun l => (l, ((v.filter (fun r => r.Location == l)).map Row.Total_Spend).sum)))

/-- Line 274: mean revenue per coupon status. -/
def couponEffect (v : List Row) : List (String × Option ℚ) :=
  groupbyMean v Row.Coupon_Status Row.Revenue

/-- Line 282: the discount bucket labels, in bin order. -/
def discount_labels : List String := ["0-5%", "5-10%", "10-15%", "15-20%", "20%+"]

/-- Lines 280-282: `pd.cut(x, bins=[0, 5, 10, 15, 20, 100], labels=...)`
with pandas defaults: intervals `(0,5], (5,10], (10,15], (15,20],
(20,100]`; values `≤ 0` or `> 100` fall outside every bin. -/
def discountBucket (q : ℚ) : Option String :=
  if q ≤ 0 then none
  else if q ≤ 5 then some "0-5%"
  else if q ≤ 10 then some "5-10%"
  else if q ≤ 15 then some "10-15%"
  else if q ≤ 20 then some "15-20%"
  else if q ≤ 100 then some "20%+"
  else none

/-- Line 283: `groupby('Discount_Group')['Revenue'].mean()`, all five
labels emitted in bin order (`observed=False`). -/
def discountImpact (v : List Row) : List (String × Option ℚ) :=
  discount_labels.map
    (fun lab => (lab,
      mean ((v.filter (fun r => discountBucket r.Discount_pct == some lab)).map Row.Revenue)))

/-- One record of `filtered_df.head(100).to_dict('records')` (line 289):
all columns of the loaded table plus the `Tenure_Group` and
`Discount_Group` columns added to `filtered_df` at lines 261 and 280. -/
structure PreviewRow where
  base : Row
  Tenure_Group : Option String
  Discount_Group : Option String
deriving DecidableEq

/-- Line 289: the first 100 rows of the filtered frame, carrying the two
derived bucket columns. -/
def tableData (v : List Row) : List PreviewRow :=
  (v.take 100).map (fun r => ⟨r, tenureBucket r.Tenure_Months, discountBucket r.Discount_pct⟩)

/-- Lines 225-231: the filter application.  An empty selection list is
falsy in Python (`if categories:`), meaning no restriction on that
dimension; a non-empty list keeps the rows whose value is a member. -/
def filteredView (df : List Row) (categories locations : List String) : List Row :=
  let t1 := if categories.isEmpty then df
            else df.filter (fun r => categories.contains r.Product_Category)
  if locations.isEmpty then t1
  else t1.filter (fun r => locations.contains r.Location)

/-- The nine outputs returned by `update_graphs` (line 291), with the
plotting layer stripped: each figure is represented by the aggregate
frame handed to plotly. -/
structure AggregateBundle where
  sales_trend : List (Nat × ℚ)
  category_revenue : List (String × ℚ)
  top_products : List (String × ℚ)
  gender_spending : List (String × ℚ × ℚ)
  tenure_spending : List (String × Option ℚ)
  location_spending : List (String × ℚ)
  coupon_effectiveness : List (String × Option ℚ)
  discount_impact : List (String × Option ℚ)
  table_data : List PreviewRow
deriving DecidableEq

/-- The `update_graphs` callback (lines 223-292) as a pure function of
the loaded table and the two dropdown selections. -/
def updateGraphs (df : List Row) (categories locations : List String) : AggregateBundle :=
  let filtered_df := filteredView df categories locations
  { sales_trend := monthlySales filtered_df
    category_revenue := categoryRevenue filtered_df
    top_products := topProducts filtered_df
    gender_spending := genderSpending filtered_df
    tenure_spending := tenureSpending filtered_df
    location_spending := locationSpending df filtered_df
    coupon_effectiveness := couponEffect filtered_df
    discount_impact := discountImpact filtered_df
    table_data := tableData filtered_df }

/-- The descending order realised by `sort_values(ascending=False)` after a
key-sorted groupby: values are non-increasing, and entries with equal
values are in ascending key order (the sort is stable, so ties keep the
groupby's sorted key order). -/
def DescPair (a b : String × ℚ) : Prop :=
  b.2 ≤ a.2 ∧ (a.2 = b.2 → strLt a.1 b.1 = true)

/-- A loaded-table row viewed as a record of the preview shape, before
any bucket column exists (both derived columns absent). -/
def embedRow (r : Row) : PreviewRow := ⟨r, none, none⟩

/-- A dataframe object on the Python heap: rows that may or may not carry
the two derived bucket columns. -/
abbrev Frame : Type := List PreviewRow

/-- Line 261: `filtered_df['Tenure_Group'] = pd.cut(...)` — an in-place
column assignment on the frame object. -/
def addTenureGroup (t : Frame) : Frame :=
  t.map (fun p => { p with Tenure_Group := tenureBucket p.base.Tenure_Months })

/-- Line 280: `filtered_df['Discount_Group'] = pd.cut(...)` — an in-place
column assignment on the frame object. -/
def addDiscountGroup (t : Frame) : Frame :=
  t.map (fun p => { p with Discount_Group := discountBucket p.base.Discount_pct })

/-- The Python heap restricted to dataframe objects: object ids are list
positions. -/
abbrev Heap : Type := List Frame

/-- Dereference an object id. -/
def heapGet (h : Heap) (i : Nat) : Frame := h.getD i []

/-- Allocate a fresh object (fresh id = current heap size): what
`df.copy()` and boolean-mask filtering do. -/
def heapAlloc (h : Heap) (v : Frame) : Heap × Nat := (h ++ [v], h.length)

/-- Overwrite the object at an id: what an in-place column assignment
does to the frame object it targets. -/
def heapSet (h : Heap) (i : Nat) (v : Frame) : Heap := h.set i v

/-- The dataframe manipulations of `update_graphs` (lines 223-292) played
on the heap, tracking which objects each statement writes:
`filtered_df = df.copy()` allocates a fresh object (line 225); each
applied boolean-mask filter rebinds `filtered_df` to another fresh object
(lines 227-231); the two bucket-column assignments (lines 261, 280)
mutate the object currently bound to `filtered_df` in place.  The global
`df` is never rebound.  Returns the final heap and the returned bundle. -/
def runUpdateGraphs (h : Heap) (dfId : Nat) (categories locations : List String) :
    Heap × AggregateBundle :=
  let df := heapGet h dfId
  let p1 := heapAlloc h df
  let p2 := if categories.isEmpty then p1
            else heapAlloc p1.1
              ((heapGet p1.1 p1.2).filter (fun r => categories.contains r.base.Product_Category))
  let p3 := if locations.isEmpty then p2
            else heapAlloc p2.1
              ((heapGet p2.1 p2.2).filter (fun r => locations.contains r.base.Location))
  let h4 := heapSet p3.1 p3.2 (addTenureGroup (heapGet p3.1 p3.2))
  let h5 := heapSet h4 p3.2 (addDiscountGroup (heapGet h4 p3.2))
  (h5, updateGraphs (df.map PreviewRow.base) categories locations)

/-! ### Concrete sample data for the counterexamples and witnesses -/

/-- A sample loaded-table row. -/
def exRow : Row :=
  { CustomerID := 1
    Transaction_ID := 1
    Transaction_Date := ⟨2020, 1, 15⟩
    Product_Category := "A"
    Product_Description := "prodA"
    Gender := "F"
    Location := "London"
    Tenure_Months := 3
    Quantity := 2
    Avg_Price := 5
    Online_Spend := 4
    Offline_Spend := 6
    Discount_pct := 7
    Coupon_Status := "Used"
    Date := ⟨2020, 1, 15⟩
    Total_Spend := 10
    Revenue := 10 }

/-- Two rows in January and March 2020 — no row in February. -/
def exTableGap : List Row :=
  [exRow, { exRow with Transaction_Date := ⟨2020, 3, 1⟩, Quantity := 3, Avg_Price := 1, Revenue := 3 }]

/-- A single row with `Tenure_Months = 0`. -/
def exTableTenure0 : List Row := [{ exRow with Tenure_Months := 0 }]

/-- A raw row whose spends sum to a negative `Total_Spend`. -/
def exRawNeg : RawRow :=
  { CustomerID := 1
    Transaction_ID := 1
    Transaction_Date := ⟨2020, 1, 15⟩
    Product_Category := "A"
    Product_Description := "prodA"
    Gender := "F"
    Location := "London"
    Tenure_Months := 3
    Quantity := 2
    Avg_Price := 5
    Online_Spend := 4
    Offline_Spend := -9
    Discount_pct := 7
    Coupon_Status := "Used"
    Date := ⟨2020, 1, 15⟩ }

/-- A one-row table (used with a filter matching nothing, and for the
row preview). -/
def exTableOne : List Row := [exRow]

/-- Two categories with equal revenue, `"B"` first in file order. -/
def exTableTie : List Row :=
  [{ exRow with Product_Category := "B", Quantity := 1, Avg_Price := 5, Revenue := 5 },
   { exRow with Product_Category := "A", Quantity := 1, Avg_Price := 5, Revenue := 5 }]

/-- A one-object heap holding the loaded table. -/
def exHeap : Heap := [exTableOne.map embedRow]

/-! ## Claims -/

/-- C2, counterexample.  The claim puts `tenure_months = 0` into bucket
`"0-6"`, and says exactly the rows with negative tenure are excluded.  In
the code, `pd.cut` with `bins=[0, 6, ...]` and default `right=True`,
`include_lowest=False` leaves 0 outside the first bin `(0, 6]`: on a
one-row table with `Tenure_Months = 0` every bucket of the tenure
aggregate comes out empty (mean `none`), i.e. the row is excluded even
though its tenure is not negative. -/
theorem C2_counterexample :
    tenureBucket 0 = none ∧
    (updateGraphs exTableTenure0 [] []).tenure_spending =
      [("0-6", none), ("7-12", none), ("13-24", none), ("25-36", none), ("36+", none)] :=
  ⟨by with_unfolding_all rfl, by with_unfolding_all rfl⟩

/-- C2, amended.  The tenure bucketing excludes exactly the rows with
`tenure_months ≤ 0` (not only the negative ones): any `q ≤ 0` gets no
bucket, any `q > 0` gets one, and the stated boundary examples hold:
6 falls in `"0-6"` and 7 in `"7-12"`. -/
theorem C2_boundaries (q p : ℚ) (hq : q ≤ 0) (hp : 0 < p) :
    tenureBucket q = none ∧ tenureBucket p ≠ none ∧
    tenureBucket 6 = some "0-6" ∧ tenureBucket 7 = some "7-12" := by
  refine ⟨by simp [tenureBucket, hq], ?_, by with_unfolding_all rfl, by with_unfolding_all rfl⟩
  simp only [tenureBucket]
  split_ifs with h1 h2 h3 h4 h5 <;> simp
  exact absurd h1 (not_le.mpr hp)

/-- C2, witness for `C2_boundaries` at `q = 0`, `p = 5`. -/
theorem C2_witness :
    (0 : ℚ) ≤ 0 ∧ (0 : ℚ) < 5 ∧
    (tenureBucket 0 = none ∧ tenureBucket 5 ≠ none ∧
      tenureBucket 6 = some "0-6" ∧ tenureBucket 7 = some "7-12") :=
  ⟨le_refl 0, by decide, C2_boundaries 0 5 (le_refl 0) (by decide)⟩

/-- C6.  The discount bucketing of lines 280-282: every row with
`discount_pct ≤ 0` is excluded (`pd.cut` leaves values at or below the
first bin edge 0 unbinned), `discount_pct = 5` falls in `"0-5%"` (right
edge included) and `discount_pct = 5.1` falls in `"5-10%"`. -/
theorem C6_buckets (q : ℚ) (hq : q ≤ 0) :
    discountBucket q = none ∧
    discountBucket 5 = some "0-5%" ∧
    discountBucket (51 / 10) = some "5-10%" :=
  ⟨by simp [discountBucket, hq], by with_unfolding_all rfl, by with_unfolding_all rfl⟩

/-- C6, witness for `C6_buckets` at `q = 0`: `discount_pct = 0` is
excluded from the discount aggregate. -/
theorem C6_witness :
    (0 : ℚ) ≤ 0 ∧
    (discountBucket 0 = none ∧
      discountBucket 5 = some "0-5%" ∧
      discountBucket (51 / 10) = some "5-10%") :=
  ⟨le_refl 0, C6_buckets 0 (le_refl 0)⟩

/-- C10.  The last discount bin of line 281 is `(20, 100]`, not
`(20, ∞)`: a row with `discount_pct > 100` falls outside every bin and is
excluded from the discount aggregate, while values in `(20, 100]` get the
`"20%+"` label. -/
theorem C10_top_bucket (q p : ℚ) (hq : 100 < q) (hp1 : 20 < p) (hp2 : p ≤ 100) :
    discountBucket q = none ∧ discountBucket p = some "20%+" := by
  constructor
  · simp only [discountBucket]
    split_ifs <;> first | rfl | linarith
  · simp only [discountBucket]
    split_ifs <;> first | rfl | linarith

/-- C10, witness for `C10_top_bucket` at `q = 101`, `p = 50`. -/
theorem C10_witness :
    (100 : ℚ) < 101 ∧ (20 : ℚ) < 50 ∧ (50 : ℚ) ≤ 100 ∧
    (discountBucket 101 = none ∧ discountBucket 50 = some "20%+") :=
  ⟨by decide, by decide, by decide, C10_top_bucket 101 50 (by decide) (by decide) (by decide)⟩

/-- C3, counterexample.  The claim says a negative computed `total_spend`
fails the load.  Lines 26-27 of the source compute the two derived
columns with no validation at all: on a raw row with
`Online_Spend = 4, Offline_Spend = -9` the load succeeds and the table
holds `Total_Spend = -5 < 0`. -/
theorem C3_counterexample :
    load [exRawNeg] = Except.ok [preprocess exRawNeg] ∧
    (preprocess exRawNeg).Total_Spend = -5 ∧
    (preprocess exRawNeg).Total_Spend < 0 :=
  ⟨rfl, by with_unfolding_all rfl, by with_unfolding_all decide⟩

/-- C3, amended.  The load computes `Total_Spend = Offline_Spend +
Online_Spend` and `Revenue = Quantity * Avg_Price` for every row and
performs no validation of the results: it always succeeds (on parsable
input), negative values propagating silently into the loaded table. -/
theorem C3_no_validation (rows : List RawRow) :
    load rows = Except.ok (rows.map preprocess) ∧
    (rows.map preprocess).map Row.Total_Spend
      = rows.map (fun r => r.Offline_Spend + r.Online_Spend) ∧
    (rows.map preprocess).map Row.Revenue
      = rows.map (fun r => r.Quantity * r.Avg_Price) := by
  refine ⟨rfl, ?_, ?_⟩ <;> simp [List.map_map, Function.comp, preprocess]

/-- C3, witness: `C3_no_validation` at the one-row table of
`C3_counterexample`. -/
theorem C3_witness :
    load [exRawNeg] = Except.ok ([exRawNeg].map preprocess) ∧
    ([exRawNeg].map preprocess).map Row.Total_Spend
      = [exRawNeg].map (fun r => r.Offline_Spend + r.Online_Spend) ∧
    ([exRawNeg].map preprocess).map Row.Revenue
      = [exRawNeg].map (fun r => r.Quantity * r.Avg_Price) :=
  C3_no_validation [exRawNeg]

/-- C4, counterexample.  The claim wants every aggregate empty when the
filtered view is empty.  With the category filter `["Z"]` matching no row
of a one-row table, the view is empty, yet the location aggregate still
lists every `Location` category of the loaded table (with sum 0) and the
tenure aggregate still lists all five bucket labels (with mean `none`),
because those groupbys run over categorical columns with
`observed=False`. -/
theorem C4_counterexample :
    filteredView exTableOne ["Z"] [] = [] ∧
    (updateGraphs exTableOne ["Z"] []).location_spending = [("London", 0)] ∧
    (updateGraphs exTableOne ["Z"] []).tenure_spending =
      [("0-6", none), ("7-12", none), ("13-24", none), ("25-36", none), ("36+", none)] ∧
    (updateGraphs exTableOne ["Z"] []).location_spending ≠ [] :=
  ⟨by with_unfolding_all rfl, by with_unfolding_all rfl, by with_unfolding_all rfl,
    by with_unfolding_all decide⟩

/-- C4, amended.  When the filtered view is empty, the aggregates over
object-dtype keys and the row preview are empty result sets (not
errors), and every mean over an empty selection is `none` rather than a
number; but the three aggregates over categorical keys are *not* empty:
tenure and discount list all five bucket labels with mean `none`, and
the location aggregate lists every location category of the loaded table
with sum 0. -/
theorem C4_empty_view (df : List Row) (cats locs : List String)
    (h : filteredView df cats locs = []) :
    (updateGraphs df cats locs).sales_trend = [] ∧
    (updateGraphs df cats locs).category_revenue = [] ∧
    (updateGraphs df cats locs).top_products = [] ∧
    (updateGraphs df cats locs).gender_spending = [] ∧
    (updateGraphs df cats locs).coupon_effectiveness = [] ∧
    (updateGraphs df cats locs).table_data = [] ∧
    (updateGraphs df cats locs).tenure_spending = tenure_labels.map (fun lab => (lab, none)) ∧
    (updateGraphs df cats locs).discount_impact = discount_labels.map (fun lab => (lab, none)) ∧
    (updateGraphs df cats locs).location_spending =
      sortDesc ((uniqueSorted (df.map Row.Location)).map (fun l => (l, 0))) := by
  simp only [updateGraphs, h]
  refine ⟨rfl, rfl, rfl, rfl, rfl, rfl, ?_, ?_, ?_⟩
  · simp [tenureSpending, mean]
  · simp [discountImpact, mean]
  · simp [locationSpending]

/-- C4, witness: `C4_empty_view` on the one-row table with the
nothing-matching filter `["Z"]` of `C4_counterexample`. -/
theorem C4_witness :
    filteredView exTableOne ["Z"] [] = [] ∧
    ((updateGraphs exTableOne ["Z"] []).sales_trend = [] ∧
      (updateGraphs exTableOne ["Z"] []).category_revenue = [] ∧
      (updateGraphs exTableOne ["Z"] []).top_products = [] ∧
      (updateGraphs exTableOne ["Z"] []).gender_spending = [] ∧
      (updateGraphs exTableOne ["Z"] []).coupon_effectiveness = [] ∧
      (updateGraphs exTableOne ["Z"] []).table_data = [] ∧
      (updateGraphs exTableOne ["Z"] []).tenure_spending =
        tenure_labels.map (fun lab => (lab, none)) ∧
      (updateGraphs exTableOne ["Z"] []).discount_impact =
        discount_labels.map (fun lab => (lab, none)) ∧
      (updateGraphs exTableOne ["Z"] []).location_spending =
        sortDesc ((uniqueSorted (exTableOne.map Row.Location)).map (fun l => (l, 0)))) :=
  ⟨by with_unfolding_all rfl, C4_empty_view exTableOne ["Z"] [] (by with_unfolding_all rfl)⟩

/-- C5.  Aggregating with the empty filter (both dropdowns cleared — the
falsy branch of lines 227/230) yields exactly the same bundle as
aggregating with any non-empty selections that cover every category and
every location present in the table: in both cases the filtered view is
the whole table, and every aggregate reads only the view (and the loaded
table itself, for the location categories). -/
theorem C5_full_filter (df : List Row) (cats locs : List String)
    (hc : ∀ r ∈ df, r.Product_Category ∈ cats)
    (hl : ∀ r ∈ df, r.Location ∈ locs) :
    updateGraphs df cats locs = updateGraphs df [] [] := by
  have hv : filteredView df cats locs = df := by
    simp only [filteredView]
    have h1 : (if cats.isEmpty then df
        else df.filter (fun r => cats.contains r.Product_Category)) = df := by
      split
      · rfl
      · exact List.filter_eq_self.mpr (fun r hr => by
          simpa using hc r hr)
    rw [h1]
    split
    · rfl
    · exact List.filter_eq_self.mpr (fun r hr => by
        simpa using hl r hr)
  have hv0 : filteredView df [] [] = df := rfl
  simp only [updateGraphs, hv, hv0]

/-- C5, witness: `C5_full_filter` on the one-row sample table with the
covering selections `["A"]` and `["London"]`. -/
theorem C5_witness :
    (∀ r ∈ exTableOne, r.Product_Category ∈ ["A"]) ∧
    (∀ r ∈ exTableOne, r.Location ∈ ["London"]) ∧
    updateGraphs exTableOne ["A"] ["London"] = updateGraphs exTableOne [] [] :=
  ⟨by decide, by decide, C5_full_filter exTableOne ["A"] ["London"] (by decide) (by decide)⟩

set_option maxRecDepth 4000 in
/-- C8, counterexample.  The claim says the preview rows carry exactly
the loaded table's column set.  By line 289 `filtered_df` has also
received the `Tenure_Group` and `Discount_Group` columns (lines 261,
280), so `to_dict('records')` emits them too: on a one-row table the
preview record carries `Tenure_Group = "0-6"` and
`Discount_Group = "5-10%"`, and differs from the bare filtered view
(`embedRow` = a view row with both derived columns absent). -/
theorem C8_counterexample :
    (updateGraphs exTableOne [] []).table_data = [⟨exRow, some "0-6", some "5-10%"⟩] ∧
    (updateGraphs exTableOne [] []).table_data ≠ (filteredView exTableOne [] []).map embedRow :=
  ⟨by with_unfolding_all rfl, by with_unfolding_all decide⟩

/-- C8, amended.  The row preview is the first `min(100, |FilteredView|)`
rows of the filtered view in original table order — each row augmented
with the two derived bucket columns added at lines 261/280.  Projecting
the bucket columns away yields exactly `FilteredView.take 100`; in
particular the preview has at most 100 entries, each based on a row of
the filtered view, and the extra columns are determined by the row's own
`Tenure_Months` / `Discount_pct` values. -/
theorem C8_preview (df : List Row) (cats locs : List String) :
    ((updateGraphs df cats locs).table_data).map PreviewRow.base
      = (filteredView df cats locs).take 100 ∧
    ((updateGraphs df cats locs).table_data).length
      = min 100 (filteredView df cats locs).length ∧
    (∀ p ∈ (updateGraphs df cats locs).table_data,
      p.base ∈ filteredView df cats locs ∧
      p.Tenure_Group = tenureBucket p.base.Tenure_Months ∧
      p.Discount_Group = discountBucket p.base.Discount_pct) := by
  refine ⟨?_, ?_, ?_⟩
  · simp only [updateGraphs, tableData, List.map_map]
    exact List.map_id _
  · simp [updateGraphs, tableData]
  · intro p hp
    simp only [updateGraphs, tableData, List.mem_map] at hp
    obtain ⟨r, hr, rfl⟩ := hp
    exact ⟨List.mem_of_mem_take hr, rfl, rfl⟩

/-- C8, witness: the projection part of `C8_preview` on the one-row
sample table. -/
theorem C8_witness :
    ((updateGraphs exTableOne [] []).table_data).map PreviewRow.base
      = (filteredView exTableOne [] []).take 100 :=
  (C8_preview exTableOne [] []).1

/-! ### Order lemmas for the groupby key order and the descending sort -/

theorem lexLt_trans : ∀ (a b c : List Char),
    lexLt a b = true → lexLt b c = true → lexLt a c = true := by
  intro a
  induction a with
  | nil =>
    intro b c h1 h2
    cases b with
    | nil => simp [lexLt] at h1
    | cons y ys =>
      cases c with
      | nil => simp [lexLt] at h2
      | cons z zs => simp [lexLt]
  | cons x xs ih =>
    intro b c h1 h2
    cases b with
    | nil => simp [lexLt] at h1
    | cons y ys =>
      cases c with
      | nil => simp [lexLt] at h2
      | cons z zs =>
        simp only [lexLt] at h1 h2 ⊢
        by_cases hxy : x < y
        · by_cases hyz : y < z
          · simp [lt_trans hxy hyz]
          · by_cases hzy : z < y
            · simp [hyz, hzy] at h2
            · have hy : y = z := le_antisymm (not_lt.mp hzy) (not_lt.mp hyz)
              subst hy
              simp [hxy]
        · by_cases hyx : y < x
          · simp [hxy, hyx] at h1
          · have hx : x = y := le_antisymm (not_lt.mp hyx) (not_lt.mp hxy)
            subst hx
            simp only [lt_irrefl, if_false] at h1
            by_cases hxz : x < z
            · simp [hxz]
            · by_cases hzx : z < x
              · simp [hxz, hzx] at h2
              · have hx2 : x = z := le_antisymm (not_lt.mp hzx) (not_lt.mp hxz)
                subst hx2
                simp only [lt_irrefl, if_false] at h2 ⊢
                exact ih ys zs h1 h2

theorem lexLt_total : ∀ (a b : List Char),
    a ≠ b → lexLt a b = true ∨ lexLt b a = true := by
  intro a
  induction a with
  | nil =>
    intro b hne
    cases b with
    | nil => exact absurd rfl hne
    | cons y ys => left; simp [lexLt]
  | cons x xs ih =>
    intro b hne
    cases b with
    | nil => right; simp [lexLt]
    | cons y ys =>
      by_cases hxy : x < y
      · left; simp [lexLt, hxy]
      · by_cases hyx : y < x
        · right; simp [lexLt, hyx]
        · have hx : x = y := le_antisymm (not_lt.mp hyx) (not_lt.mp hxy)
          subst hx
          have hne2 : xs ≠ ys := fun h => hne (by rw [h])
          rcases ih ys hne2 with h | h
          · left; simpa [lexLt, lt_irrefl] using h
          · right; simpa [lexLt, lt_irrefl] using h

theorem strLt_trans {a b c : String} (h1 : strLt a b = true) (h2 : strLt b c = true) :
    strLt a c = true :=
  lexLt_trans a.data b.data c.data h1 h2

theorem strLt_total {a b : String} (hne : a ≠ b) :
    strLt a b = true ∨ strLt b a = true := by
  refine lexLt_total a.data b.data (fun h => hne ?_)
  cases a; cases b; exact congrArg String.mk (by simpa using h)

theorem mem_insertUnique {x y : String} :
    ∀ {l : List String}, y ∈ insertUnique x l → y = x ∨ y ∈ l := by
  intro l
  induction l with
  | nil =>
    intro h
    simp only [insertUnique, List.mem_singleton] at h
    exact Or.inl h
  | cons z zs ih =>
    intro h
    simp only [insertUnique] at h
    by_cases h1 : x = z
    · rw [if_pos h1] at h
      exact Or.inr h
    · rw [if_neg h1] at h
      by_cases h2 : strLt x z = true
      · simp only [h2, if_true] at h
        rcases List.mem_cons.mp h with rfl | h3
        · exact Or.inl rfl
        · exact Or.inr h3
      · simp only [h2, if_false] at h
        rcases List.mem_cons.mp h with rfl | h3
        · exact Or.inr (List.mem_cons_self _ _)
        · rcases ih h3 with rfl | h4
          · exact Or.inl rfl
          · exact Or.inr (List.mem_cons_of_mem _ h4)

theorem insertUnique_pairwise {x : String} :
    ∀ {l : List String}, l.Pairwise (fun a b => strLt a b = true) →
      (insertUnique x l).Pairwise (fun a b => strLt a b = true) := by
  intro l
  induction l with
  | nil => intro _; simp [insertUnique]
  | cons z zs ih =>
    intro hp
    rcases List.pairwise_cons.mp hp with ⟨hz, hzs⟩
    simp only [insertUnique]
    by_cases h1 : x = z
    · rw [if_pos h1]; exact hp
    · rw [if_neg h1]
      by_cases h2 : strLt x z = true
      · simp only [h2, if_true]
        refine List.pairwise_cons.mpr ⟨?_, hp⟩
        intro w hw
        rcases List.mem_cons.mp hw with rfl | hw2
        · exact h2
        · exact strLt_trans h2 (hz w hw2)
      · simp only [h2, if_false]
        refine List.pairwise_cons.mpr ⟨?_, ih hzs⟩
        intro w hw
        rcases mem_insertUnique hw with rfl | hw2
        · rcases strLt_total h1 with h3 | h3
          · exact absurd h3 h2
          · exact h3
        · exact hz w hw2

theorem uniqueSorted_pairwise (xs : List String) :
    (uniqueSorted xs).Pairwise (fun a b => strLt a b = true) := by
  induction xs with
  | nil => simp [uniqueSorted]
  | cons x xs ih => exact insertUnique_pairwise ih

theorem mem_insertDesc {x y : String × ℚ} :
    ∀ {l : List (String × ℚ)}, y ∈ insertDesc x l → y = x ∨ y ∈ l := by
  intro l
  induction l with
  | nil =>
    intro h
    simp only [insertDesc, List.mem_singleton] at h
    exact Or.inl h
  | cons z zs ih =>
    intro h
    simp only [insertDesc] at h
    by_cases h1 : z.2 ≤ x.2
    · rw [if_pos h1] at h
      rcases List.mem_cons.mp h with rfl | h2
      · exact Or.inl rfl
      · exact Or.inr h2
    · rw [if_neg h1] at h
      rcases List.mem_cons.mp h with rfl | h2
      · exact Or.inr (List.mem_cons_self _ _)
      · rcases ih h2 with rfl | h3
        · exact Or.inl rfl
        · exact Or.inr (List.mem_cons_of_mem _ h3)

theorem insertDesc_pairwise {x : String × ℚ} :
    ∀ {l : List (String × ℚ)}, l.Pairwise DescPair →
      (∀ w ∈ l, strLt x.1 w.1 = true) → (insertDesc x l).Pairwise DescPair := by
  intro l
  induction l with
  | nil => intro _ _; simp [insertDesc]
  | cons z zs ih =>
    intro hp hx
    rcases List.pairwise_cons.mp hp with ⟨hz, hzs⟩
    simp only [insertDesc]
    by_cases h : z.2 ≤ x.2
    · rw [if_pos h]
      refine List.pairwise_cons.mpr ⟨?_, hp⟩
      intro w hw
      rcases List.mem_cons.mp hw with rfl | hw2
      · exact ⟨h, fun _ => hx w (List.mem_cons_self _ _)⟩
      · exact ⟨le_trans (hz w hw2).1 h, fun _ => hx w (List.mem_cons_of_mem _ hw2)⟩
    · rw [if_neg h]
      refine List.pairwise_cons.mpr
        ⟨?_, ih hzs (fun w hw => hx w (List.mem_cons_of_mem _ hw))⟩
      intro w hw
      rcases mem_insertDesc hw with rfl | hw2
      · exact ⟨le_of_lt (not_le.mp h), fun he => ((ne_of_lt (not_le.mp h)) he.symm).elim⟩
      · exact hz w hw2

theorem mem_sortDesc {y : String × ℚ} :
    ∀ {l : List (String × ℚ)}, y ∈ sortDesc l → y ∈ l := by
  intro l
  induction l with
  | nil => intro h; exact h
  | cons x xs ih =>
    intro h
    rcases mem_insertDesc (l := sortDesc xs) h with rfl | h2
    · exact List.mem_cons_self _ _
    · exact List.mem_cons_of_mem _ (ih h2)

theorem sortDesc_pairwise :
    ∀ {l : List (String × ℚ)}, l.Pairwise (fun a b => strLt a.1 b.1 = true) →
      (sortDesc l).Pairwise DescPair := by
  intro l
  induction l with
  | nil => intro _; simp [sortDesc]
  | cons x xs ih =>
    intro hp
    rcases List.pairwise_cons.mp hp with ⟨hx, hxs⟩
    exact insertDesc_pairwise (ih hxs) (fun w hw => hx w (mem_sortDesc hw))

/-- C7, counterexample.  The claim says equal-value entries of the
category-revenue output appear in the order their group first occurs in
the input rows.  On a table whose file order is category `"B"` then
`"A"`, both with revenue 5, the output is `[("A", 5), ("B", 5)]`: the
`groupby` emits its keys in *sorted* order before `sort_values` runs, so
ties come out in ascending key order, not first-occurrence order. -/
theorem C7_counterexample :
    filteredView exTableTie [] [] = exTableTie ∧
    exTableTie.map Row.Product_Category = ["B", "A"] ∧
    (updateGraphs exTableTie [] []).category_revenue = [("A", 5), ("B", 5)] :=
  ⟨rfl, by with_unfolding_all rfl, by with_unfolding_all rfl⟩

/-- C7, amended.  For every filter, the category-revenue and
location-spending outputs are sorted in descending order of their summed
value, and entries with equal sums appear in ascending order of their
group key (`DescPair`) — the order the key-sorted groupby emitted them
in, preserved by the stable sort — not in input first-occurrence order. -/
theorem C7_sorted (df : List Row) (cats locs : List String) :
    ((updateGraphs df cats locs).category_revenue).Pairwise DescPair ∧
    ((updateGraphs df cats locs).location_spending).Pairwise DescPair := by
  constructor
  · simp only [updateGraphs, categoryRevenue, groupbySum]
    exact sortDesc_pairwise
      (List.Pairwise.map _ (fun a b h => h) (uniqueSorted_pairwise _))
  · simp only [updateGraphs, locationSpending]
    exact sortDesc_pairwise
      (List.Pairwise.map _ (fun a b h => h) (uniqueSorted_pairwise _))

/-- C7, witness: `C7_sorted` on the tie table of `C7_counterexample`. -/
theorem C7_witness :
    ((updateGraphs exTableTie [] []).category_revenue).Pairwise DescPair ∧
    ((updateGraphs exTableTie [] []).location_spending).Pairwise DescPair :=
  C7_sorted exTableTie [] []

/-! ### Month-span lemmas for the monthly trend -/

theorem span_foldl (ms : List Nat) : ∀ (p : Nat × Nat),
    (ms.foldl (fun p x => (min p.1 x, max p.2 x)) p).1 ≤ p.1 ∧
    p.2 ≤ (ms.foldl (fun p x => (min p.1 x, max p.2 x)) p).2 ∧
    ∀ x ∈ ms, (ms.foldl (fun p x => (min p.1 x, max p.2 x)) p).1 ≤ x ∧
      x ≤ (ms.foldl (fun p x => (min p.1 x, max p.2 x)) p).2 := by
  induction ms with
  | nil => intro p; exact ⟨le_refl _, le_refl _, by simp⟩
  | cons y ys ih =>
    intro p
    obtain ⟨h1, h2, h3⟩ := ih (min p.1 y, max p.2 y)
    refine ⟨le_trans h1 (min_le_left _ _), le_trans (le_max_left _ _) h2, ?_⟩
    intro x hx
    rcases List.mem_cons.mp hx with rfl | hx2
    · exact ⟨le_trans h1 (min_le_right _ _), le_trans (le_max_right _ _) h2⟩
    · exact h3 x hx2

theorem monthSpan_bounds {xs : List Nat} {lo hi : Nat} (h : monthSpan xs = some (lo, hi)) :
    ∀ x ∈ xs, lo ≤ x ∧ x ≤ hi := by
  cases xs with
  | nil => simp [monthSpan] at h
  | cons m ms =>
    have h' : (ms.foldl (fun p x => (min p.1 x, max p.2 x)) (m, m)) = (lo, hi) := by
      simpa [monthSpan] using h
    obtain ⟨h1, h2, h3⟩ := span_foldl ms (m, m)
    rw [h'] at h1 h2 h3
    intro x hx
    rcases List.mem_cons.mp hx with rfl | hx2
    · exact ⟨h1, h2⟩
    · exact h3 x hx2

theorem monthSpan_le {xs : List Nat} {lo hi : Nat} (h : monthSpan xs = some (lo, hi)) :
    lo ≤ hi := by
  cases xs with
  | nil => simp [monthSpan] at h
  | cons m ms =>
    obtain ⟨h1, h2⟩ := monthSpan_bounds h m (List.mem_cons_self _ _)
    exact le_trans h1 h2

/-- C1, counterexample.  The claim says only months with at least one
matching row appear in the monthly trend.  On a table with one row in
January 2020 and one in March 2020 (filter empty), the trend contains a
February 2020 entry with revenue 0, though no row falls in February:
`pd.Grouper(freq='M')` generates every month bin between the earliest
and latest date, and the sum of an empty bin is 0. -/
theorem C1_counterexample :
    filteredView exTableGap [] [] = exTableGap ∧
    exTableGap.map (fun r => monthIdx r.Transaction_Date) = [24240, 24242] ∧
    (updateGraphs exTableGap [] []).sales_trend = [(24240, 10), (24241, 0), (24242, 3)] :=
  ⟨rfl, by with_unfolding_all rfl, by with_unfolding_all rfl⟩

/-- C1, amended.  For every filter, the monthly sales trend contains
exactly the consecutive run of calendar months from the earliest to the
latest transaction month of the matching rows: the month of every
matching row appears; every entry's value is the revenue sum of its
month (0 when no row matches it); and every month lying between two
output months also appears — so interior months with zero matching rows
are emitted as zero-valued entries, not omitted.  Only when no row
matches at all is the output empty. -/
theorem C1_zero_filled (df : List Row) (cats locs : List String) :
    (filteredView df cats locs = [] → (updateGraphs df cats locs).sales_trend = []) ∧
    (∀ r ∈ filteredView df cats locs,
      (monthIdx r.Transaction_Date,
        revenueInMonth (filteredView df cats locs) (monthIdx r.Transaction_Date))
        ∈ (updateGraphs df cats locs).sales_trend) ∧
    (∀ p ∈ (updateGraphs df cats locs).sales_trend,
      p.2 = revenueInMonth (filteredView df cats locs) p.1) ∧
    (∀ p q, p ∈ (updateGraphs df cats locs).sales_trend →
      q ∈ (updateGraphs df cats locs).sales_trend →
      ∀ m, p.1 ≤ m → m ≤ q.1 →
        (m, revenueInMonth (filteredView df cats locs) m)
          ∈ (updateGraphs df cats locs).sales_trend) := by
  have hst : (updateGraphs df cats locs).sales_trend
      = monthlySales (filteredView df cats locs) := rfl
  rw [hst]
  cases hms : monthSpan ((filteredView df cats locs).map (fun r => monthIdx r.Transaction_Date)) with
  | none =>
    have hv0 : filteredView df cats locs = [] := by
      cases hfv : filteredView df cats locs with
      | nil => rfl
      | cons r rs => rw [hfv] at hms; simp [monthSpan] at hms
    have hml : monthlySales (filteredView df cats locs) = [] := by
      unfold monthlySales; rw [hms]
    refine ⟨fun _ => hml, ?_, ?_, ?_⟩
    · intro r hr; rw [hv0] at hr; exact absurd hr (List.not_mem_nil r)
    · intro p hp; rw [hml] at hp; exact absurd hp (List.not_mem_nil p)
    · intro p q hp _ _ _ _; rw [hml] at hp; exact absurd hp (List.not_mem_nil p)
  | some lohi =>
    obtain ⟨lo, hi⟩ := lohi
    have hml : monthlySales (filteredView df cats locs)
        = (List.range' lo (hi + 1 - lo)).map
            (fun m => (m, revenueInMonth (filteredView df cats locs) m)) := by
      unfold monthlySales; rw [hms]
    have hlohi : lo ≤ hi := monthSpan_le hms
    refine ⟨?_, ?_, ?_, ?_⟩
    · intro hv0
      rw [hv0] at hms; simp [monthSpan] at hms
    · intro r hr
      have hx : monthIdx r.Transaction_Date
          ∈ (filteredView df cats locs).map (fun r => monthIdx r.Transaction_Date) :=
        List.mem_map.mpr ⟨r, hr, rfl⟩
      obtain ⟨h1, h2⟩ := monthSpan_bounds hms _ hx
      rw [hml]
      exact List.mem_map.mpr ⟨monthIdx r.Transaction_Date,
        List.mem_range'_1.mpr ⟨h1, by omega⟩, rfl⟩
    · intro p hp
      rw [hml] at hp
      obtain ⟨m, _, rfl⟩ := List.mem_map.mp hp
      rfl
    · intro p q hp hq m hpm hmq
      rw [hml] at hp hq ⊢
      obtain ⟨mp, hmp, rfl⟩ := List.mem_map.mp hp
      obtain ⟨mq, hmq2, rfl⟩ := List.mem_map.mp hq
      have h1 := List.mem_range'_1.mp hmp
      have h2 := List.mem_range'_1.mp hmq2
      have hpm' : mp ≤ m := hpm
      have hmq' : m ≤ mq := hmq
      refine List.mem_map.mpr ⟨m, List.mem_range'_1.mpr ⟨?_, ?_⟩, rfl⟩
      · exact le_trans h1.1 hpm'
      · omega

/-- C1, witness: by `C1_zero_filled` on the January/March table, the
gap month February 2020 (index 24241, between the two output months)
appears in the trend with its (zero) revenue sum. -/
theorem C1_witness :
    (24241, revenueInMonth (filteredView exTableGap [] []) 24241)
      ∈ (updateGraphs exTableGap [] []).sales_trend :=
  (C1_zero_filled exTableGap [] []).2.2.2 (24240, 10) (24242, 3)
    (by with_unfolding_all decide) (by with_unfolding_all decide)
    24241 (by decide) (by decide)

/-! ### Heap lemmas for the frame-effect claim -/

theorem heapGet_heapAlloc_lt {h : Heap} {v : Frame} {j : Nat} (hj : j < h.length) :
    heapGet (heapAlloc h v).1 j = heapGet h j := by
  simp [heapGet, heapAlloc, List.getD_eq_getElem?_getD, List.getElem?_append, hj]

theorem heapGet_heapSet_ne {h : Heap} {i j : Nat} {v : Frame} (hne : i ≠ j) :
    heapGet (heapSet h i v) j = heapGet h j := by
  simp [heapGet, heapSet, List.getD_eq_getElem?_getD, List.getElem?_set_ne hne]

/-- C9.  The aggregate call never mutates the loaded source table: every
in-place write of `update_graphs` (the two bucket-column assignments of
lines 261/280) targets the object allocated by `df.copy()` at line 225
or one of the fresh objects produced by boolean-mask filtering — all
allocated after (hence distinct from) the loaded table's object — so the
heap cell holding the loaded table is identical before and after the
call. -/
theorem C9_source_unchanged (h : Heap) (dfId : Nat) (cats locs : List String)
    (hlt : dfId < h.length) :
    heapGet (runUpdateGraphs h dfId cats locs).1 dfId = heapGet h dfId := by
  unfold runUpdateGraphs
  by_cases hc : cats.isEmpty = true <;> by_cases hl : locs.isEmpty = true <;>
    simp only [hc, hl, Bool.false_eq_true, if_true, if_false] <;>
    rw [heapGet_heapSet_ne (by simp [heapAlloc]; omega),
        heapGet_heapSet_ne (by simp [heapAlloc]; omega)] <;>
    repeat rw [heapGet_heapAlloc_lt (by (try simp [heapAlloc]); omega)]

/-- C9, witness: `C9_source_unchanged` on a one-object heap holding the
one-row sample table. -/
theorem C9_witness :
    0 < exHeap.length ∧
    heapGet (runUpdateGraphs exHeap 0 [] []).1 0 = heapGet exHeap 0 :=
  ⟨by decide, C9_source_unchanged exHeap 0 [] [] (by decide)⟩

end TDash
